import Mathlib

/-
Verification of the live telemetry ingestion and aggregation client of
bison-pulse against its specification.

The embedding models, at the JavaScript runtime level:
  - the record transform applied inline in src/lib/stream.ts
    (eventSource.onmessage) and src/lib/api.ts (getLatest), including
    JavaScript truthiness-based field selection (`a || b`);
  - getLatest and generateMockData from src/lib/api.ts, with the
    Math.random() draws passed in as rational parameters in [0, 1);
  - the BisonStreamManager connection logic of src/lib/stream.ts as a
    state-plus-outputs step semantics: each browser/timer event
    (onopen, onerror, onmessage, the 10-second connect-timeout firing,
    the scheduled reconnect setTimeout firing, a poll interval tick)
    is a function from manager state to new state and the list of
    callback invocations (onMessage / onStatusChange) it performs;
  - the aggregator of the useBisonStream hook: handleNewDetection
    (bounded history buffer) and the KPI recomputation effect.

Numbers are ℚ (JavaScript numbers in range, no NaN modelling needed for
the claims below); strings are String. TypeScript union types are not
enforced at runtime, so string fields of normalized events are String,
not an enum — runtime-faithful to the JSON.parse output actually flowing
through the code.
-/

namespace BisonPulse

/-- Runtime value of a detection record as produced by the inline transform
in stream.ts (onmessage) and api.ts (getLatest). String fields mirror the
JavaScript runtime values; the TS union annotations are not runtime checks. -/
structure BisonDetection where
  timestamp : String
  count : ℚ
  movement : String
  fps : ℚ
  source : String
deriving DecidableEq

/-- A raw record as obtained from JSON.parse of a stream message or a
response body: every field the transform reads may be absent. -/
structure RawRecord where
  timestamp : Option String
  bison_count : Option ℚ
  count : Option ℚ
  movement : Option String
  fps : Option ℚ
  source : Option String
deriving DecidableEq

/-- JavaScript `a || b` where `a` is a possibly-undefined number field:
undefined and 0 are falsy. -/
def jsOrQ : Option ℚ → ℚ → ℚ
  | some x, b => if x = 0 then b else x
  | none, b => b

/-- JavaScript `a || b` where `a` is a possibly-undefined string field:
undefined and the empty string are falsy. -/
def jsOrS : Option String → String → String
  | some s, b => if s = "" then b else s
  | none, b => b

/-- The inline transform of stream.ts onmessage and api.ts getLatest:
field selection by JavaScript truthiness with fixed defaults. `now` stands
for the value of `new Date().toISOString()` at transform time. -/
def normalizeRecord (data : RawRecord) (now : String) : BisonDetection :=
  { timestamp := jsOrS data.timestamp now
    count := jsOrQ data.bison_count (jsOrQ data.count 0)
    movement := jsOrS data.movement ("stationary")
    fps := jsOrQ data.fps 0
    source := jsOrS data.source ("rtsp") }

/-- The `movements` array of generateMockData in api.ts. -/
def movements : List String := ["north", "south", "east", "west", "stationary"]

/-- The `sources` array of generateMockData in api.ts. -/
def mockSources : List String := ["rtsp", "sample"]

/-- Number(x.toFixed(1)) for the nonnegative values produced by the mock
generator: round to one decimal place, ties upward. -/
def roundTo1 (x : ℚ) : ℚ := ((⌊x * 10 + 1 / 2⌋ : ℤ) : ℚ) / 10

/-- generateMockData from api.ts. `r0 r1 r2 r3` are the successive
Math.random() draws (each in [0, 1)): count, movement index, fps, source
index; `now` is `new Date().toISOString()`. -/
def generateMockData (now : String) (r0 r1 r2 r3 : ℚ) : BisonDetection :=
  { timestamp := now
    count := ((⌊r0 * 12⌋ : ℤ) : ℚ) + 1
    movement := movements.getD (⌊r1 * 5⌋).toNat ("stationary")
    fps := roundTo1 (20 + r2 * 10)
    source := mockSources.getD (⌊r3 * 2⌋).toNat ("rtsp") }

/-- Outcome of the fetch + body decode inside getLatest: the request may
fail at the network level, return a non-ok HTTP status, deliver an
undecodable body, or succeed with a parsed record. -/
inductive FetchOutcome
  | networkError
  | httpError (status : Nat)
  | badBody
  | ok (data : RawRecord)
deriving DecidableEq

/-- True on every branch of getLatest that reaches its catch block. -/
def FetchOutcome.isFailure : FetchOutcome → Bool
  | .ok _ => false
  | _ => true

/-- getLatest from api.ts: a successful fetch is transformed like a stream
message; every failure (network error, HTTP !ok, body decode failure) is
caught and replaced by generateMockData — the promise never rejects. -/
def getLatest (outcome : FetchOutcome) (now : String) (r0 r1 r2 r3 : ℚ) :
    BisonDetection :=
  match outcome with
  | .ok data => normalizeRecord data now
  | _ => generateMockData now r0 r1 r2 r3

/-- MAX_DATA_POINTS from the useBisonStream hook. -/
def MAX_DATA_POINTS : Nat := 1800

/-- KPI_WINDOW_MINUTES from the useBisonStream hook. -/
def KPI_WINDOW_MINUTES : Int := 15

/-- handleNewDetection of the useBisonStream hook acting on the detections
buffer: `[...prev, detection].slice(-MAX_DATA_POINTS)`; JavaScript
slice(-n) keeps the last n elements, i.e. drops length - n from the head. -/
def handleNewDetection (prev : List BisonDetection) (detection : BisonDetection) :
    List BisonDetection :=
  let updated := prev ++ [detection]
  updated.drop (updated.length - MAX_DATA_POINTS)

/-- The buffer obtained by delivering the given events, in order, to
handleNewDetection starting from the empty buffer. -/
def bufferRun (events : List BisonDetection) : List BisonDetection :=
  events.foldl handleNewDetection []

/-- The KPIData record of the hook. -/
structure KPIData where
  currentCount : ℚ
  averageCount : ℚ
  fps : ℚ
  lastUpdate : String
deriving DecidableEq

/-- The window test of the KPI effect: `new Date(d.timestamp) >= windowStart`
with `windowStart = now - KPI_WINDOW_MINUTES * 60 * 1000`. `parse` models
Date parsing to epoch milliseconds; none models an invalid date, whose NaN
comparison is false in JavaScript. -/
def inKpiWindow (parse : String → Option Int) (now : Int) (d : BisonDetection) :
    Bool :=
  match parse d.timestamp with
  | some t => decide (now - KPI_WINDOW_MINUTES * 60 * 1000 ≤ t)
  | none => false

/-- The KPI recomputation effect of useBisonStream: none models the early
return when the buffer is empty; otherwise the snapshot is built from
detections[length - 1] and the reduce-based mean over the filtered window. -/
def computeKPIs (detections : List BisonDetection) (parse : String → Option Int)
    (now : Int) : Option KPIData :=
  if detections.length = 0 then none
  else
    let latest := detections.getLastD { timestamp := "", count := 0, movement := "", fps := 0, source := "" }
    let recentDetections := detections.filter (inKpiWindow parse now)
    let averageCount : ℚ :=
      if 0 < recentDetections.length then
        recentDetections.foldl (fun sum d => sum + d.count) 0 /
          (recentDetections.length : ℚ)
      else 0
    some { currentCount := latest.count
           averageCount := averageCount
           fps := latest.fps
           lastUpdate := latest.timestamp }

/-- The status values of the StatusCallback in stream.ts. -/
inductive ConnStatus
  | connected
  | disconnected
  | error
deriving DecidableEq

/-- One externally observable callback invocation of BisonStreamManager. -/
inductive Output
  | status (s : ConnStatus)
  | message (d : BisonDetection)
deriving DecidableEq

/-- EventSource.readyState values. -/
inductive ESReady
  | connecting
  | opened
  | closed
deriving DecidableEq

/-- The mutable fields of BisonStreamManager, plus two resource counters
(openChannels: EventSource objects not yet closed, liveIntervals: running
setInterval loops) that count resources even after the manager overwrites
its only reference to them. connectTimeoutPending / sseSettled /
retryDelay model the current startSSE invocation's 10-second connect
timer, its promise settlement, and the reconnect setTimeout scheduled by
onerror (none of which stop() knows about). -/
structure MState where
  eventSource : Option ESReady
  openChannels : Nat
  storedInterval : Bool
  liveIntervals : Nat
  isUsingSSE : Bool
  reconnectAttempts : Nat
  connectTimeoutPending : Bool
  sseSettled : Bool
  retryDelay : Option Nat
deriving DecidableEq

/-- maxReconnectAttempts field of BisonStreamManager. -/
def maxReconnectAttempts : Nat := 3

/-- The 10000 ms connect timeout of startSSE. -/
def CONNECT_TIMEOUT_MS : Nat := 10000

/-- The 2000 ms base of the linear reconnect backoff in onerror. -/
def RETRY_BASE_MS : Nat := 2000

/-- The fixed 2000 ms polling cadence of startPolling. -/
def POLL_INTERVAL_MS : Nat := 2000

/-- Manager state at construction time: no channel, no timers, no pending
promise. -/
def initialState : MState :=
  { eventSource := none
    openChannels := 0
    storedInterval := false
    liveIntervals := 0
    isUsingSSE := false
    reconnectAttempts := 0
    connectTimeoutPending := false
    sseSettled := true
    retryDelay := none }

/-- Environment of one pollData run: whether the dynamic `import('./api')`
succeeds, the fetch outcome inside getLatest, and the wall clock/random
draws it consumes. -/
structure PollEnv where
  importOk : Bool
  outcome : FetchOutcome
  now : String
  r0 : ℚ
  r1 : ℚ
  r2 : ℚ
  r3 : ℚ
deriving DecidableEq

/-- pollData of startPolling: on a successful import it always delivers
getLatest's resolution via onMessage (getLatest never rejects); its catch
block — reachable only if the import itself fails — reports status error. -/
def pollData (env : PollEnv) : List Output :=
  if env.importOk then
    [Output.message (getLatest env.outcome env.now env.r0 env.r1 env.r2 env.r3)]
  else [Output.status ConnStatus.error]

/-- startPolling of stream.ts: clears isUsingSSE, reports status connected,
runs pollData once immediately, and installs a new setInterval, overwriting
this.pollingInterval (a previously stored interval keeps running but can no
longer be cleared). -/
def startPolling (env : PollEnv) (s : MState) : MState × List Output :=
  ({ s with
      isUsingSSE := false
      storedInterval := true
      liveIntervals := s.liveIntervals + 1 },
   Output.status ConnStatus.connected :: pollData env)

/-- Entry of startSSE: `this.eventSource = new EventSource(url)` (a previous
EventSource is overwritten without being closed), a fresh 10-second connect
timeout is armed, and a fresh unsettled promise is created. -/
def startSSE (s : MState) : MState :=
  { s with
      eventSource := some ESReady.connecting
      openChannels := s.openChannels + 1
      connectTimeoutPending := true
      sseSettled := false }

/-- start() of stream.ts: unconditionally begins startSSE (no guard against
a second call); its catch of the startSSE rejection is modelled at the
rejection sites. -/
def start (s : MState) : MState := startSSE s

/-- The onopen handler: clears the connect timeout, marks SSE in use, resets
the attempt counter, reports status connected and resolves the promise. -/
def onOpen (s : MState) : MState × List Output :=
  match s.eventSource with
  | some ESReady.connecting =>
      ({ s with
          eventSource := some ESReady.opened
          connectTimeoutPending := false
          isUsingSSE := true
          reconnectAttempts := 0
          sseSettled := true },
       [Output.status ConnStatus.connected])
  | _ => (s, [])

/-- The onerror handler. `after` is the readyState the browser leaves the
EventSource in. While reconnectAttempts < maxReconnectAttempts it
increments the counter and schedules a reconnect setTimeout after
2000 ms × attempt; otherwise it rejects the startSSE promise — if that
promise is still unsettled, its rejection handler (start()'s catch, or the
.catch of a retried startSSE) runs startPolling. -/
def onError (after : ESReady) (env : PollEnv) (s : MState) : MState × List Output :=
  match s.eventSource with
  | none => (s, [])
  | some _ =>
      let s1 := { s with eventSource := some after, connectTimeoutPending := false }
      if s1.reconnectAttempts < maxReconnectAttempts then
        ({ s1 with
            reconnectAttempts := s1.reconnectAttempts + 1
            retryDelay := some (RETRY_BASE_MS * (s1.reconnectAttempts + 1)) },
         [Output.status ConnStatus.error])
      else if s1.sseSettled then (s1, [Output.status ConnStatus.error])
      else
        let p := startPolling env { s1 with sseSettled := true }
        (p.1, Output.status ConnStatus.error :: p.2)

/-- The onmessage handler: JSON.parse failure (payload none) only logs —
no callback, no state change; a parsed record is transformed and delivered. -/
def onMessage (payload : Option RawRecord) (now : String) (s : MState) :
    MState × List Output :=
  match s.eventSource with
  | none => (s, [])
  | some _ =>
      match payload with
      | none => (s, [])
      | some data => (s, [Output.message (normalizeRecord data now)])

/-- The 10-second connect timeout firing. stop() never clears this timer,
so it can fire after stop(): `this.eventSource?.close()` (a no-op when the
reference is already gone) and then reject — if the startSSE promise is
still unsettled, the rejection handler runs startPolling. Note: no retry
bookkeeping happens on this path. -/
def onConnectTimeout (env : PollEnv) (s : MState) : MState × List Output :=
  if s.connectTimeoutPending then
    let s1 := { s with
      connectTimeoutPending := false
      eventSource := s.eventSource.map (fun _ => ESReady.closed)
      openChannels :=
        match s.eventSource with
        | some ESReady.closed => s.openChannels
        | some _ => s.openChannels - 1
        | none => s.openChannels }
    if s1.sseSettled then (s1, [])
    else startPolling env { s1 with sseSettled := true }
  else (s, [])

/-- The reconnect setTimeout firing: it retries startSSE only when
`this.eventSource?.readyState === EventSource.CLOSED`; otherwise it does
nothing (in particular when the reference was nulled by stop()). -/
def onRetryTimer (s : MState) : MState × List Output :=
  match s.retryDelay with
  | none => (s, [])
  | some _ =>
      let s1 := { s with retryDelay := none }
      if s1.eventSource = some ESReady.closed then (startSSE s1, []) else (s1, [])

/-- stop() of stream.ts: closes and nulls the EventSource if the reference
is live, clears the stored polling interval if the reference is live, and
unconditionally reports status disconnected. It does not clear the connect
timeout or the reconnect setTimeout, and it cannot reach a leaked channel
or interval whose reference was overwritten. -/
def stop (s : MState) : MState × List Output :=
  let s1 :=
    match s.eventSource with
    | some r =>
        { s with
          eventSource := none
          openChannels :=
            if r = ESReady.closed then s.openChannels else s.openChannels - 1 }
    | none => s
  let s2 :=
    if s1.storedInterval then
      { s1 with storedInterval := false, liveIntervals := s1.liveIntervals - 1 }
    else s1
  (s2, [Output.status ConnStatus.disconnected])

/-- A tick of a live polling interval: runs pollData; state is untouched. -/
def onPollTick (env : PollEnv) (s : MState) : MState × List Output :=
  if 0 < s.liveIntervals then (s, pollData env) else (s, [])

/-- Return values of getConnectionType. -/
inductive ConnType
  | sse
  | polling
  | offline
deriving DecidableEq

/-- getConnectionType of stream.ts: offline when neither reference is live,
else sse/polling by the isUsingSSE flag. -/
def getConnectionType (s : MState) : ConnType :=
  if s.eventSource = none ∧ s.storedInterval = false then ConnType.offline
  else if s.isUsingSSE then ConnType.sse else ConnType.polling

/-- The I/O events that can drive the manager between external calls. -/
inductive MEvent
  | esOpen
  | esError (after : ESReady) (env : PollEnv)
  | esMessage (payload : Option RawRecord) (now : String)
  | connectTimeoutFires (env : PollEnv)
  | retryTimerFires
  | pollTick (env : PollEnv)
deriving DecidableEq

/-- Dispatch of one I/O event to its handler. -/
def step (s : MState) : MEvent → MState × List Output
  | MEvent.esOpen => onOpen s
  | MEvent.esError a env => onError a env s
  | MEvent.esMessage p now => onMessage p now s
  | MEvent.connectTimeoutFires env => onConnectTimeout env s
  | MEvent.retryTimerFires => onRetryTimer s
  | MEvent.pollTick env => onPollTick env s

/-- Run a sequence of I/O events from a state, keeping the final state. -/
def run (s : MState) : List MEvent → MState
  | [] => s
  | e :: es => run (step s e).1 es

/-- The aggregator consuming a list of callback invocations: every message
output is appended to the buffer via handleNewDetection; status outputs do
not touch the buffer. -/
def applyOutputs (outs : List Output) (buf : List BisonDetection) :
    List BisonDetection :=
  outs.foldl
    (fun b o =>
      match o with
      | Output.message d => handleNewDetection b d
      | Output.status _ => b)
    buf

/-- The fixed movement set of the spec's data model (section 3). -/
def validMovements : List String := ["north", "south", "east", "west", "stationary"]

/-- The two provenance tags of the spec's data model: rtsp is the live-feed
tag, sample the archived-sample tag. -/
def validSources : List String := ["rtsp", "sample"]

/-- Modelled from the spec (section 3 data model): a structurally valid
DetectionEvent has a nonnegative count, a movement drawn from the fixed
five-element set, a nonnegative fps and a source that is one of the two
provenance tags. -/
def structurallyValid (d : BisonDetection) : Bool :=
  decide (0 ≤ d.count) && validMovements.contains d.movement &&
    decide (0 ≤ d.fps) && validSources.contains d.source

/-- A possibly-absent number field whose present value is well formed
(nonnegative), used to state when the unvalidated pass-through of the
normalizer still yields a structurally valid event. -/
def wellFormedOptQ : Option ℚ → Bool
  | none => true
  | some q => decide (0 ≤ q)

/-- A possibly-absent string field whose present value is falsy or drawn
from the given valid set. -/
def wellFormedOptS (valid : List String) : Option String → Bool
  | none => true
  | some s => s == "" || valid.contains s

/-- Keeping the last MAX_DATA_POINTS of a list that has already been
truncated to its last MAX_DATA_POINTS, after appending more elements, is
the same as keeping the last MAX_DATA_POINTS of the untruncated append. -/
theorem drop_last_append (x l : List BisonDetection) :
    (x.drop (x.length - MAX_DATA_POINTS) ++ l).drop
        ((x.drop (x.length - MAX_DATA_POINTS) ++ l).length - MAX_DATA_POINTS)
      = (x ++ l).drop ((x ++ l).length - MAX_DATA_POINTS) := by
  rw [List.drop_append_eq_append_drop, List.drop_append_eq_append_drop,
      List.drop_drop, List.length_append, List.length_append, List.length_drop]
  have h1 : x.length - MAX_DATA_POINTS
        + ((x.length - (x.length - MAX_DATA_POINTS) + l.length) - MAX_DATA_POINTS)
      = (x.length + l.length) - MAX_DATA_POINTS := by omega
  have h2 : ((x.length - (x.length - MAX_DATA_POINTS) + l.length) - MAX_DATA_POINTS)
        - (x.length - (x.length - MAX_DATA_POINTS))
      = (x.length + l.length) - MAX_DATA_POINTS - x.length := by omega
  rw [h1, h2]

/-- Folding handleNewDetection over a list from any buffer within capacity
yields exactly the last MAX_DATA_POINTS elements of buffer ++ list. -/
theorem foldl_handleNewDetection (l : List BisonDetection) :
    ∀ acc : List BisonDetection, acc.length ≤ MAX_DATA_POINTS →
      l.foldl handleNewDetection acc
        = (acc ++ l).drop ((acc ++ l).length - MAX_DATA_POINTS) := by
  induction l with
  | nil =>
      intro acc h
      have h0 : acc.length - MAX_DATA_POINTS = 0 := by omega
      simp [h0]
  | cons d t ih =>
      intro acc h
      have hstep : handleNewDetection acc d
          = (acc ++ [d]).drop ((acc ++ [d]).length - MAX_DATA_POINTS) := rfl
      have hlen : (handleNewDetection acc d).length ≤ MAX_DATA_POINTS := by
        rw [hstep, List.length_drop]
        omega
      calc (d :: t).foldl handleNewDetection acc
          = t.foldl handleNewDetection (handleNewDetection acc d) :=
            List.foldl_cons ..
        _ = ((handleNewDetection acc d) ++ t).drop
              (((handleNewDetection acc d) ++ t).length - MAX_DATA_POINTS) :=
            ih _ hlen
        _ = ((acc ++ [d]) ++ t).drop
              (((acc ++ [d]) ++ t).length - MAX_DATA_POINTS) := by
            rw [hstep]; exact drop_last_append (acc ++ [d]) t
        _ = (acc ++ d :: t).drop ((acc ++ d :: t).length - MAX_DATA_POINTS) := by
            rw [List.append_assoc, List.singleton_append]

/-- The buffer built by appending a whole event sequence is exactly the
last MAX_DATA_POINTS of that sequence. -/
theorem bufferRun_eq (events : List BisonDetection) :
    bufferRun events = events.drop (events.length - MAX_DATA_POINTS) := by
  have h := foldl_handleNewDetection events [] (by simp [MAX_DATA_POINTS])
  simpa [bufferRun] using h

/-- C2: for every sequence of appended events, the history buffer never
exceeds 1800 entries at any step; after all appends it holds exactly the
most recent min(N, 1800) events in arrival order (the suffix obtained by
dropping N - 1800 from the head); and once N > 1800 every evicted event —
in particular the one appended 1801 steps ago, which sits in the dropped
prefix — is no longer in the buffer (stated for duplicate-free sequences,
matching FIFO eviction of the distinct event objects). -/
theorem c2_buffer_bound_fifo (events : List BisonDetection) :
    (∀ k : Nat, (bufferRun (events.take k)).length ≤ MAX_DATA_POINTS)
    ∧ bufferRun events = events.drop (events.length - MAX_DATA_POINTS)
    ∧ (events.Nodup → MAX_DATA_POINTS < events.length →
        ∀ x ∈ events.take (events.length - MAX_DATA_POINTS),
          x ∉ bufferRun events) := by
  refine ⟨?_, bufferRun_eq events, ?_⟩
  · intro k
    rw [bufferRun_eq, List.length_drop]
    omega
  · intro hnd _hlen x hx
    rw [bufferRun_eq]
    have hsplit : events.take (events.length - MAX_DATA_POINTS)
        ++ events.drop (events.length - MAX_DATA_POINTS) = events :=
      List.take_append_drop _ _
    have hnd2 : (events.take (events.length - MAX_DATA_POINTS)
        ++ events.drop (events.length - MAX_DATA_POINTS)).Nodup := by
      rw [hsplit]; exact hnd
    rw [List.nodup_append] at hnd2
    exact fun hmem => hnd2.2.2 hx hmem

/-- Event with a distinguishing count, used to witness FIFO eviction. -/
def c2Event (n : Nat) : BisonDetection :=
  { timestamp := "", count := n, movement := "", fps := 0, source := "" }

/-- A duplicate-free sequence of 1801 distinct events. -/
def c2Events : List BisonDetection := (List.range 1801).map c2Event

theorem c2_buffer_bound_fifo_witness : c2Event 0 ∉ bufferRun c2Events := by
  have hinj : Function.Injective c2Event := by
    intro a b hab
    have hc : ((a : ℚ)) = ((b : ℚ)) := congrArg BisonDetection.count hab
    exact_mod_cast hc
  have hnd : c2Events.Nodup := (List.nodup_range 1801).map hinj
  have hlen : MAX_DATA_POINTS < c2Events.length := by
    simp [c2Events, MAX_DATA_POINTS]
  have hmem : c2Event 0 ∈ c2Events.take (c2Events.length - MAX_DATA_POINTS) := by
    have h1 : c2Events.length - MAX_DATA_POINTS = 1 := by
      simp [c2Events, MAX_DATA_POINTS]
    have h2 : c2Events = c2Event 0 :: ((List.range 1800).map Nat.succ).map c2Event := by
      rw [c2Events, List.range_succ_eq_map, List.map_cons]
    rw [h1, h2]
    simp
  exact (c2_buffer_bound_fifo c2Events).2.2 hnd hlen (c2Event 0) hmem

/-- The reduce-based accumulation of counts equals the sum of the counts. -/
theorem foldl_add_count (l : List BisonDetection) :
    ∀ a : ℚ, l.foldl (fun sum d => sum + d.count) a
      = a + (l.map BisonDetection.count).sum := by
  induction l with
  | nil => intro a; simp
  | cons d t ih =>
      intro a
      rw [List.foldl_cons, ih, List.map_cons, List.sum_cons]
      ring

/-- Appending one event to a within-capacity buffer keeps a nonempty
suffix ending in that event. -/
theorem handleNewDetection_shape (prev : List BisonDetection) (d : BisonDetection) :
    handleNewDetection prev d
      = prev.drop (prev.length + 1 - MAX_DATA_POINTS) ++ [d] := by
  have hm : MAX_DATA_POINTS = 1800 := rfl
  show (prev ++ [d]).drop ((prev ++ [d]).length - MAX_DATA_POINTS)
      = prev.drop (prev.length + 1 - MAX_DATA_POINTS) ++ [d]
  rw [List.drop_append_eq_append_drop, List.length_append]
  have h1 : prev.length + [d].length - MAX_DATA_POINTS - prev.length = 0 := by
    simp only [List.length_singleton]
    omega
  have h2 : prev.length + [d].length - MAX_DATA_POINTS
      = prev.length + 1 - MAX_DATA_POINTS := by
    simp only [List.length_singleton]
  rw [h1, h2, List.drop_zero]

/-- C3: after every append the recomputed snapshot (when the buffer is
nonempty, which it always is after an append) takes currentCount, fps and
lastUpdate from the event just appended, and averageCount is the
arithmetic mean of count over exactly the buffered events whose timestamp
passes the trailing-15-minute wall-clock window test (zero when no
buffered event passes it). -/
theorem c3_kpi_snapshot (prev : List BisonDetection) (d : BisonDetection)
    (parse : String → Option Int) (now : Int) :
    computeKPIs (handleNewDetection prev d) parse now
      = some
        { currentCount := d.count
          averageCount :=
            if ((handleNewDetection prev d).filter (inKpiWindow parse now)).length = 0
            then 0
            else (((handleNewDetection prev d).filter (inKpiWindow parse now)).map
                BisonDetection.count).sum
              / (((handleNewDetection prev d).filter (inKpiWindow parse now)).length : ℚ)
          fps := d.fps
          lastUpdate := d.timestamp } := by
  rw [handleNewDetection_shape]
  set X := prev.drop (prev.length + 1 - MAX_DATA_POINTS) with hX
  have hne : (X ++ [d]).length ≠ 0 := by simp
  rw [computeKPIs]
  rw [if_neg hne]
  have hlast : (X ++ [d]).getLastD
      { timestamp := "", count := 0, movement := "", fps := 0, source := "" } = d := by
    rw [List.getLastD_eq_getLast?, List.getLast?_concat]
    rfl
  have havg : ((X ++ [d]).filter (inKpiWindow parse now)).foldl
        (fun sum d => sum + d.count) 0
      = (((X ++ [d]).filter (inKpiWindow parse now)).map BisonDetection.count).sum := by
    rw [foldl_add_count]
    ring
  simp only [hlast, havg]
  rcases Nat.eq_zero_or_pos ((X ++ [d]).filter (inKpiWindow parse now)).length with h0 | h0
  · rw [h0]
    norm_num
  · rw [if_pos h0, if_neg (by omega)]

/-- C6: a raw payload that fails JSON.parse is dropped inside onmessage
before the transform runs: no event callback and no status callback is
invoked (the output list is empty), the manager state — transport flags,
attempt counter, timers — is exactly unchanged, and consequently the
aggregator's history buffer is unchanged. -/
theorem c6_malformed_payload_dropped (s : MState) (now : String)
    (buf : List BisonDetection) :
    onMessage none now s = (s, [])
    ∧ applyOutputs (onMessage none now s).2 buf = buf := by
  have h1 : onMessage none now s = (s, []) := by
    rw [onMessage]
    cases s.eventSource <;> rfl
  refine ⟨h1, ?_⟩
  rw [h1]
  rfl

/-- Poll environment for the stop-scenario theorems: the dynamic import
succeeds, the fetch fails at the network level, random draws all zero. -/
def c4Env : PollEnv :=
  { importOk := true, outcome := FetchOutcome.networkError, now := "t1",
    r0 := 0, r1 := 0, r2 := 0, r3 := 0 }

/-- C4 (code bug): the first conjunct shows that a second stop(), called
right after a first one, still invokes the status callback with
'disconnected' — the claim demands no callback at all on a repeated
stop(). The remaining conjuncts run the claim's other scenario: stop()
during the initial 10-second connect window does not clear startSSE's
connect timeout, so when that timer later fires it rejects the still
pending startSSE promise, start()'s catch handler runs startPolling, and
the subscriber receives a 'connected' status and a polled mock event
after stop() returned — and is left with a live polling interval. -/
theorem c4_stop_callbacks_bug :
    (stop (stop (start initialState)).1).2 = [Output.status ConnStatus.disconnected]
    ∧ (onConnectTimeout c4Env (stop (start initialState)).1).2
        = [Output.status ConnStatus.connected,
           Output.message (generateMockData ("t1") 0 0 0 0)]
    ∧ (onConnectTimeout c4Env (stop (start initialState)).1).1.liveIntervals = 1 := by
  exact ⟨rfl, rfl, rfl⟩

/-- C8 (code bug): start() has no guard against a double call. From a
state in which the first start() succeeded and the stream is open, a
second start() runs startSSE unconditionally, creating a second
EventSource and overwriting the manager's only reference to the first
without closing it: two channels are open at once, and even stop() can
close only the one still referenced — one open channel is leaked forever,
while getConnectionType already reports offline. -/
theorem c8_double_start_bug :
    (start (onOpen (start initialState)).1).openChannels = 2
    ∧ (stop (start (onOpen (start initialState)).1)).1.openChannels = 1
    ∧ getConnectionType (stop (start (onOpen (start initialState)).1)).1
        = ConnType.offline := by
  refine ⟨rfl, rfl, rfl⟩

/-- Poll environment with a failing fetch (HTTP 500) and a successful
dynamic import, used for the polling-resilience claim. -/
def c5Env : PollEnv :=
  { importOk := true, outcome := FetchOutcome.httpError 500, now := "t2",
    r0 := 0, r1 := 0, r2 := 0, r3 := 0 }

/-- C5 counterexample: one poll tick whose fetch fails (HTTP 500) while the
polling transport is active. The subscriber receives a mock detection event
and no status callback at all — in particular no 'error' — contradicting
the claim that every fetch failure during polling is reported via the
status callback as 'error'. -/
theorem c5_counterexample_no_error_status :
    (onPollTick c5Env (startPolling c5Env initialState).1).2
        = [Output.message (generateMockData ("t2") 0 0 0 0)]
    ∧ Output.status ConnStatus.error ∉
        (onPollTick c5Env (startPolling c5Env initialState).1).2 := by
  have h : (onPollTick c5Env (startPolling c5Env initialState).1).2
      = [Output.message (generateMockData ("t2") 0 0 0 0)] := rfl
  refine ⟨h, ?_⟩
  rw [h]
  simp

/-- C5 (amended): a fetch failure during polling is swallowed inside
getLatest, which resolves with a synthetic mock event: the tick delivers
exactly one event callback carrying generateMockData's event, emits no
'error' status, leaves the manager state (hence the live interval) exactly
unchanged so the loop keeps running at its fixed 2000 ms cadence forever,
and no exception escapes (the handler is total). -/
theorem c5_polling_resilience_amended (env : PollEnv) (s : MState)
    (hlive : 0 < s.liveIntervals) (hok : env.importOk = true)
    (hfail : env.outcome.isFailure = true) :
    onPollTick env s
        = (s, [Output.message (generateMockData env.now env.r0 env.r1 env.r2 env.r3)])
    ∧ Output.status ConnStatus.error ∉ (onPollTick env s).2
    ∧ POLL_INTERVAL_MS = 2000 := by
  have hget : getLatest env.outcome env.now env.r0 env.r1 env.r2 env.r3
      = generateMockData env.now env.r0 env.r1 env.r2 env.r3 := by
    cases h : env.outcome with
    | ok data => rw [h] at hfail; simp [FetchOutcome.isFailure] at hfail
    | networkError => rfl
    | httpError st => rfl
    | badBody => rfl
  have h1 : onPollTick env s
      = (s, [Output.message (generateMockData env.now env.r0 env.r1 env.r2 env.r3)]) := by
    rw [onPollTick, if_pos hlive, pollData, if_pos hok, hget]
  refine ⟨h1, ?_, rfl⟩
  rw [h1]
  simp

theorem c5_amended_witness :
    onPollTick c5Env { initialState with storedInterval := true, liveIntervals := 1 }
      = ({ initialState with storedInterval := true, liveIntervals := 1 },
         [Output.message (generateMockData ("t2") 0 0 0 0)]) :=
  (c5_polling_resilience_amended c5Env
    { initialState with storedInterval := true, liveIntervals := 1 }
    (by norm_num) rfl rfl).1

/-- C9: getLatest never rejects — on a network failure, a non-ok HTTP
status or a body-decoding failure it resolves with the synthetically
generated mock event whose count lies in 1..12, whose fps lies in 20..30
(Number((20 + random*10).toFixed(1))), and whose timestamp is the current
time; so the polling path hands the subscriber an event on every tick even
with the backend unreachable. -/
theorem c9_getLatest_mock_fallback (outcome : FetchOutcome) (now : String)
    (r0 r1 r2 r3 : ℚ) (hfail : outcome.isFailure = true)
    (h00 : 0 ≤ r0) (h01 : r0 < 1) (h20 : 0 ≤ r2) (h21 : r2 < 1) :
    getLatest outcome now r0 r1 r2 r3 = generateMockData now r0 r1 r2 r3
    ∧ (generateMockData now r0 r1 r2 r3).timestamp = now
    ∧ 1 ≤ (generateMockData now r0 r1 r2 r3).count
    ∧ (generateMockData now r0 r1 r2 r3).count ≤ 12
    ∧ 20 ≤ (generateMockData now r0 r1 r2 r3).fps
    ∧ (generateMockData now r0 r1 r2 r3).fps ≤ 30 := by
  have hget : getLatest outcome now r0 r1 r2 r3 = generateMockData now r0 r1 r2 r3 := by
    cases h : outcome with
    | ok data => rw [h] at hfail; simp [FetchOutcome.isFailure] at hfail
    | networkError => rfl
    | httpError st => rfl
    | badBody => rfl
  have hcount : (generateMockData now r0 r1 r2 r3).count = ((⌊r0 * 12⌋ : ℤ) : ℚ) + 1 := rfl
  have hfps : (generateMockData now r0 r1 r2 r3).fps
      = ((⌊(20 + r2 * 10) * 10 + 1 / 2⌋ : ℤ) : ℚ) / 10 := rfl
  have hc0 : (0 : ℤ) ≤ ⌊r0 * 12⌋ :=
    Int.floor_nonneg.mpr (mul_nonneg h00 (by norm_num))
  have hc1 : ⌊r0 * 12⌋ ≤ 11 := by
    have hlt : r0 * 12 < ((12 : ℤ) : ℚ) := by push_cast; linarith
    have := Int.floor_lt.mpr hlt
    omega
  have hf0 : (200 : ℤ) ≤ ⌊(20 + r2 * 10) * 10 + 1 / 2⌋ := by
    apply Int.le_floor.mpr
    push_cast
    linarith
  have hf1 : ⌊(20 + r2 * 10) * 10 + 1 / 2⌋ ≤ 300 := by
    have hlt : (20 + r2 * 10) * 10 + 1 / 2 < ((301 : ℤ) : ℚ) := by push_cast; linarith
    have := Int.floor_lt.mpr hlt
    omega
  refine ⟨hget, rfl, ?_, ?_, ?_, ?_⟩
  · rw [hcount]
    have h : (0 : ℚ) ≤ ((⌊r0 * 12⌋ : ℤ) : ℚ) := by exact_mod_cast hc0
    linarith
  · rw [hcount]
    have h : ((⌊r0 * 12⌋ : ℤ) : ℚ) ≤ 11 := by exact_mod_cast hc1
    linarith
  · rw [hfps]
    have h : (200 : ℚ) ≤ ((⌊(20 + r2 * 10) * 10 + 1 / 2⌋ : ℤ) : ℚ) := by exact_mod_cast hf0
    linarith
  · rw [hfps]
    have h : ((⌊(20 + r2 * 10) * 10 + 1 / 2⌋ : ℤ) : ℚ) ≤ 300 := by exact_mod_cast hf1
    linarith

theorem c9_mock_fallback_witness :
    getLatest FetchOutcome.badBody ("t3") 0 0 0 0 = generateMockData ("t3") 0 0 0 0
    ∧ (generateMockData ("t3") 0 0 0 0).timestamp = "t3"
    ∧ 1 ≤ (generateMockData ("t3") 0 0 0 0).count
    ∧ (generateMockData ("t3") 0 0 0 0).count ≤ 12
    ∧ 20 ≤ (generateMockData ("t3") 0 0 0 0).fps
    ∧ (generateMockData ("t3") 0 0 0 0).fps ≤ 30 :=
  c9_getLatest_mock_fallback FetchOutcome.badBody ("t3") 0 0 0 0 rfl
    (by norm_num) (by norm_num) (by norm_num) (by norm_num)

/-- C10: the normalizer selects fields by JavaScript truthiness of the
value, not by presence of the key — for each field, a present-but-falsy
value (0 for numbers, the empty string for strings) normalizes exactly as
an absent key does; in particular when bison_count is present but 0 the
canonical count comes from the count field if that is truthy (nonzero)
and is 0 otherwise. -/
theorem c10_truthiness_selection (r : RawRecord) (now : String) :
    normalizeRecord { r with bison_count := some 0 } now
        = normalizeRecord { r with bison_count := none } now
    ∧ normalizeRecord { r with count := some 0 } now
        = normalizeRecord { r with count := none } now
    ∧ normalizeRecord { r with fps := some 0 } now
        = normalizeRecord { r with fps := none } now
    ∧ normalizeRecord { r with movement := some ("") } now
        = normalizeRecord { r with movement := none } now
    ∧ normalizeRecord { r with timestamp := some ("") } now
        = normalizeRecord { r with timestamp := none } now
    ∧ normalizeRecord { r with source := some ("") } now
        = normalizeRecord { r with source := none } now
    ∧ (r.bison_count = some 0 →
        (normalizeRecord r now).count = jsOrQ r.count 0) := by
  refine ⟨?_, ?_, ?_, ?_, ?_, ?_, ?_⟩
  · simp [normalizeRecord, jsOrQ]
  · simp [normalizeRecord, jsOrQ]
  · simp [normalizeRecord, jsOrQ]
  · simp [normalizeRecord, jsOrS]
  · simp [normalizeRecord, jsOrS]
  · simp [normalizeRecord, jsOrS]
  · intro h
    simp [normalizeRecord, h, jsOrQ]

/-- Record with a present-but-falsy bison_count and a truthy count. -/
def c10Rec : RawRecord :=
  { timestamp := none, bison_count := some 0, count := some 7,
    movement := none, fps := none, source := none }

theorem c10_truthiness_witness :
    (normalizeRecord c10Rec ("t4")).count = jsOrQ c10Rec.count 0 :=
  (c10_truthiness_selection c10Rec ("t4")).2.2.2.2.2.2 rfl

/-- Raw record carrying a negative bison_count: a parsed record the
normalizer accepts unchanged. -/
def c7Rec : RawRecord :=
  { timestamp := none, bison_count := some (-3), count := none,
    movement := none, fps := none, source := none }

/-- C7 counterexample: the transform does not validate present values —
normalizing a parsed record whose bison_count is -3 yields an event with
count = -3, which is not a structurally valid DetectionEvent in the sense
of the spec's data model (count must be a non-negative integer), refuting
the claim that normalization always yields a structurally valid event. -/
theorem c7_counterexample_invalid_passthrough :
    (normalizeRecord c7Rec ("t5")).count = -3
    ∧ structurallyValid (normalizeRecord c7Rec ("t5")) = false := by
  constructor
  · norm_num [normalizeRecord, c7Rec, jsOrQ]
  · norm_num [structurallyValid, normalizeRecord, c7Rec, jsOrQ]

/-- C7 (amended): normalization never fails and always yields a fully
populated event: either accepted count field name yields the same
canonical count, and a record missing every optional field yields exactly
the defaults (count 0, movement "stationary", fps 0, source "rtsp" — the
live-feed tag, timestamp = acquisition time). Present values, however, are
passed through without validation, so structural validity in the spec's
sense is only guaranteed under a well-formedness assumption on the raw
record: whenever every present raw value is well formed (nonnegative
numbers; movement/source absent, falsy, or drawn from their fixed sets),
the normalized event is structurally valid. (The assumption is sufficient,
not necessary: a truthy well-formed value can shadow an ill-formed one
behind it in the || chain.) -/
theorem c7_normalizer_amended (r : RawRecord) (v : ℚ) (now : String)
    (hbc : wellFormedOptQ r.bison_count = true)
    (hc : wellFormedOptQ r.count = true)
    (hf : wellFormedOptQ r.fps = true)
    (hm : wellFormedOptS validMovements r.movement = true)
    (hs : wellFormedOptS validSources r.source = true) :
    (normalizeRecord { r with bison_count := some v, count := none } now).count
        = (normalizeRecord { r with bison_count := none, count := some v } now).count
    ∧ normalizeRecord
        { timestamp := none, bison_count := none, count := none,
          movement := none, fps := none, source := none } now
        = { timestamp := now, count := 0, movement := "stationary", fps := 0,
            source := "rtsp" }
    ∧ structurallyValid (normalizeRecord r now) = true := by
  refine ⟨?_, rfl, ?_⟩
  · simp [normalizeRecord, jsOrQ]
  · have h1 : (0 : ℚ) ≤ jsOrQ r.bison_count (jsOrQ r.count 0) := by
      have h2 : (0 : ℚ) ≤ jsOrQ r.count 0 := by
        cases hx : r.count with
        | none => norm_num [jsOrQ]
        | some q =>
            rw [hx] at hc
            simp only [wellFormedOptQ, decide_eq_true_eq] at hc
            rw [jsOrQ]
            split <;> simp [hc]
      cases hx : r.bison_count with
      | none => simpa [jsOrQ] using h2
      | some q =>
          rw [hx] at hbc
          simp only [wellFormedOptQ, decide_eq_true_eq] at hbc
          rw [jsOrQ]
          split <;> simp [hbc, h2]
    have h3 : (0 : ℚ) ≤ jsOrQ r.fps 0 := by
      cases hx : r.fps with
      | none => norm_num [jsOrQ]
      | some q =>
          rw [hx] at hf
          simp only [wellFormedOptQ, decide_eq_true_eq] at hf
          rw [jsOrQ]
          split <;> simp [hf]
    have h4 : validMovements.contains (jsOrS r.movement ("stationary")) = true := by
      cases hx : r.movement with
      | none => rfl
      | some m =>
          rw [hx] at hm
          rw [jsOrS]
          simp only [wellFormedOptS, Bool.or_eq_true, beq_iff_eq] at hm
          rcases hm with hm | hm
          · rw [if_pos hm]; rfl
          · split
            · rfl
            · exact hm
    have h5 : validSources.contains (jsOrS r.source ("rtsp")) = true := by
      cases hx : r.source with
      | none => rfl
      | some m =>
          rw [hx] at hs
          rw [jsOrS]
          simp only [wellFormedOptS, Bool.or_eq_true, beq_iff_eq] at hs
          rcases hs with hs | hs
          · rw [if_pos hs]; rfl
          · split
            · rfl
            · exact hs
    have h4m : jsOrS r.movement ("stationary") ∈ validMovements := by simpa using h4
    have h5m : jsOrS r.source ("rtsp") ∈ validSources := by simpa using h5
    simp [structurallyValid, normalizeRecord, h1, h3, h4m, h5m]

theorem c7_amended_witness :
    structurallyValid
      (normalizeRecord
        { timestamp := none, bison_count := none, count := none,
          movement := none, fps := none, source := none } ("t6")) = true :=
  (c7_normalizer_amended
    { timestamp := none, bison_count := none, count := none,
      movement := none, fps := none, source := none }
    5 ("t6") rfl rfl rfl rfl rfl).2.2

/-- Poll environment used by the connection-lifecycle claim. -/
def c1Env : PollEnv :=
  { importOk := true, outcome := FetchOutcome.networkError, now := "t7",
    r0 := 0, r1 := 0, r2 := 0, r3 := 0 }

/-- C1 counterexample: the very first stream-connection attempt fails by
the 10-second connect-timeout with attempt = 0 < 3. The claim requires the
manager to increment attempt and schedule a retry after 2000 ms × attempt;
instead the timeout rejects the startSSE promise, start()'s catch runs
startPolling at once — no retry is scheduled, the attempt counter is still
0, and the transport is already polling after this single failure. -/
theorem c1_timeout_counterexample :
    (onConnectTimeout c1Env (start initialState)).1.retryDelay = none
    ∧ (onConnectTimeout c1Env (start initialState)).1.reconnectAttempts = 0
    ∧ getConnectionType (onConnectTimeout c1Env (start initialState)).1
        = ConnType.polling := by
  exact ⟨rfl, rfl, rfl⟩

/-- Once the transport is polling and the stream reference is gone, no I/O
event (stream callback, timer, poll tick) changes that: the polling flags
and the absent EventSource are preserved by every step. -/
theorem step_preserves_polling (s : MState) (e : MEvent)
    (h1 : s.storedInterval = true) (h2 : s.isUsingSSE = false)
    (h3 : s.eventSource = none) :
    (step s e).1.storedInterval = true ∧ (step s e).1.isUsingSSE = false
      ∧ (step s e).1.eventSource = none := by
  obtain ⟨es, oc, si, li, iu, ra, ctp, ss, rd⟩ := s
  simp only at h1 h2 h3
  subst h1 h2 h3
  cases e with
  | esOpen => exact ⟨rfl, rfl, rfl⟩
  | esError a env => exact ⟨rfl, rfl, rfl⟩
  | esMessage p now => exact ⟨rfl, rfl, rfl⟩
  | connectTimeoutFires env => cases ctp <;> cases ss <;> exact ⟨rfl, rfl, rfl⟩
  | retryTimerFires => cases rd <;> exact ⟨rfl, rfl, rfl⟩
  | pollTick env =>
      simp only [step, onPollTick]
      split <;> exact ⟨rfl, rfl, rfl⟩

/-- C1 (amended): on a transport error of the current stream connection,
while attempt < 3 the manager increments attempt and schedules a retry
after 2000 ms × attempt (and does not start polling); the next transport
error after the budget is exhausted — the 4th consecutive one — rejects
the connection promise and falls back to polling. A failure by the fixed
10-second connect-timeout (CONNECT_TIMEOUT_MS = 10000) falls back to
polling immediately, performing no retry bookkeeping at all. Once polling
is active and the stream reference is gone, the transport remains polling
under every subsequent I/O event — recovery to streaming needs an explicit
external restart. -/
theorem c1_retry_and_downgrade_amended :
    (∀ (s : MState) (a : ESReady) (env : PollEnv) (r : ESReady),
      s.eventSource = some r → s.reconnectAttempts < maxReconnectAttempts →
      onError a env s
        = ({ s with
              eventSource := some a
              connectTimeoutPending := false
              reconnectAttempts := s.reconnectAttempts + 1
              retryDelay := some (RETRY_BASE_MS * (s.reconnectAttempts + 1)) },
           [Output.status ConnStatus.error]))
    ∧ (∀ (s : MState) (a : ESReady) (env : PollEnv) (r : ESReady),
        s.eventSource = some r → maxReconnectAttempts ≤ s.reconnectAttempts →
        s.sseSettled = false →
        (onError a env s).1.storedInterval = true
          ∧ (onError a env s).1.isUsingSSE = false
          ∧ (onError a env s).2
              = Output.status ConnStatus.error
                  :: Output.status ConnStatus.connected :: pollData env)
    ∧ (∀ (s : MState) (env : PollEnv),
        s.connectTimeoutPending = true → s.sseSettled = false →
        (onConnectTimeout env s).1.storedInterval = true
          ∧ (onConnectTimeout env s).1.isUsingSSE = false
          ∧ (onConnectTimeout env s).1.reconnectAttempts = s.reconnectAttempts
          ∧ (onConnectTimeout env s).1.retryDelay = s.retryDelay
          ∧ (onConnectTimeout env s).2
              = Output.status ConnStatus.connected :: pollData env)
    ∧ (∀ s : MState, s.storedInterval = true → s.isUsingSSE = false →
        s.eventSource = none → ∀ es : List MEvent,
        getConnectionType (run s es) = ConnType.polling)
    ∧ CONNECT_TIMEOUT_MS = 10000 := by
  refine ⟨?_, ?_, ?_, ?_, rfl⟩
  · intro s a env r heq hlt
    rw [onError, heq]
    have hlt2 : ({ s with eventSource := some a, connectTimeoutPending := false }
        : MState).reconnectAttempts < maxReconnectAttempts := hlt
    rw [if_pos hlt2]
  · intro s a env r heq hge hset
    rw [onError, heq]
    have hnlt : ¬ ({ s with eventSource := some a, connectTimeoutPending := false }
        : MState).reconnectAttempts < maxReconnectAttempts := by
      simp only [not_lt]
      exact hge
    rw [if_neg hnlt, hset]
    exact ⟨rfl, rfl, rfl⟩
  · intro s env hctp hset
    rw [onConnectTimeout, if_pos hctp]
    simp only [hset]
    exact ⟨rfl, rfl, rfl, rfl, rfl⟩
  · intro s h1 h2 h3 es
    induction es generalizing s with
    | nil =>
        rw [run, getConnectionType]
        rw [if_neg (by simp [h1]), if_neg (by simp [h2])]
    | cons e t ih =>
        obtain ⟨g1, g2, g3⟩ := step_preserves_polling s e h1 h2 h3
        rw [run]
        exact ih (step s e).1 g1 g2 g3

/-- State right after the third scheduled retry also failed: attempt
counter exhausted, promise still unsettled. -/
def c1ExhaustedState : MState :=
  { eventSource := some ESReady.connecting, openChannels := 1,
    storedInterval := false, liveIntervals := 0, isUsingSSE := false,
    reconnectAttempts := 3, connectTimeoutPending := false,
    sseSettled := false, retryDelay := none }

/-- A downgraded state: polling active, stream reference gone. -/
def c1PollingState : MState :=
  { eventSource := none, openChannels := 0, storedInterval := true,
    liveIntervals := 1, isUsingSSE := false, reconnectAttempts := 3,
    connectTimeoutPending := false, sseSettled := true, retryDelay := none }

theorem c1_amended_witness :
    onError ESReady.connecting c1Env (start initialState)
        = ({ start initialState with
              eventSource := some ESReady.connecting
              connectTimeoutPending := false
              reconnectAttempts := 1
              retryDelay := some (RETRY_BASE_MS * 1) },
           [Output.status ConnStatus.error])
    ∧ (onError ESReady.connecting c1Env c1ExhaustedState).1.storedInterval = true
    ∧ (onConnectTimeout c1Env (start initialState)).1.storedInterval = true
    ∧ getConnectionType (run c1PollingState [MEvent.pollTick c1Env])
        = ConnType.polling := by
  refine ⟨?_, ?_, ?_, ?_⟩
  · exact c1_retry_and_downgrade_amended.1 (start initialState) ESReady.connecting
      c1Env ESReady.connecting rfl (by decide)
  · exact (c1_retry_and_downgrade_amended.2.1 c1ExhaustedState ESReady.connecting
      c1Env ESReady.connecting rfl (by decide) rfl).1
  · exact (c1_retry_and_downgrade_amended.2.2.1 (start initialState) c1Env rfl rfl).1
  · exact c1_retry_and_downgrade_amended.2.2.2.1 c1PollingState rfl rfl rfl
      [MEvent.pollTick c1Env]

end BisonPulse
